import Mathlib

/-!
# Shallow embedding of the trading-alert webhook service (`app.py`)

The service receives JSON alerts `{alert, symbol, secret}` and translates them
into brokerage orders via a per-symbol signal memory (`last_signal`).  We embed
the webhook handler and its helpers (`get_pos_qty`, `close_all`, `latest_price`,
`place_notional_buy`, `place_qty_sell`) as pure Lean functions.  The brokerage
API is modelled as a record of oracle responses, where `none` stands for the
corresponding API call raising an exception.  Floating-point prices and the
notional cap are modelled as rationals.  Effects (orders submitted, close calls
issued) are returned explicitly.
-/

namespace TradingBot

/-- Python `str.upper()` restricted to ASCII (alerts and ticker symbols). -/
def pyUpper (s : String) : String := ⟨s.data.map Char.toUpper⟩

/-- Python `int(float(x))`: truncation toward zero. -/
def pytrunc (q : ℚ) : Int := if 0 ≤ q then ⌊q⌋ else -⌊-q⌋

/-- A brokerage position record, as returned by `api.get_position`:
`p.qty` (a numeric string, modelled as a rational) and `p.side`. -/
structure PositionRec where
  qty : ℚ
  side : String
deriving Repr, DecidableEq

/-- An order as passed to `api.submit_order` (keyword arguments). -/
structure Order where
  symbol : String
  side : String
  otype : String
  time_in_force : String
  notional : Option ℚ
  qty : Option Int
deriving Repr, DecidableEq

/-- The brokerage environment for one webhook call: what each Alpaca API call
would return.  `none` models the call raising an exception (unknown asset,
position not found / lookup failure, price feed failure).  `submitOk o = false`
models `api.submit_order` raising (insufficient funds, PDT, network failure).
`closeOk` records whether `api.close_position` would succeed; the code catches
and ignores that failure inside `close_all`, so `closeOk` is never read. -/
structure Broker where
  getAsset : String → Option Bool
  getPosition : String → Option PositionRec
  latestTrade : String → Option ℚ
  submitOk : Order → Bool
  closeOk : String → Bool

/-- Environment-variable configuration read at startup. -/
structure Config where
  WEBHOOK_SECRET : String
  ALLOW_SHORTS : Bool
  TRADE_NOTIONAL_USD : ℚ

/-- The `last_signal` dict: per-symbol last applied signal.  Updates prepend,
lookups take the most recent binding. -/
abbrev Memory := List (String × String)

/-- `last_signal.get(symbol, "FLAT")`. -/
def memGet (m : Memory) (s : String) : String := (m.lookup s).getD "FLAT"

/-- `last_signal[symbol] = v`. -/
def memSet (m : Memory) (s v : String) : Memory := (s, v) :: m

/-- `get_pos_qty`: +qty for long, -qty for short, 0 if flat / not found /
lookup failure (the `except` clause swallows every error). -/
def get_pos_qty (bk : Broker) (symbol : String) : Int :=
  match bk.getPosition symbol with
  | some p => if p.side = "long" then pytrunc p.qty else -(pytrunc p.qty)
  | none => 0

/-- `close_all`: re-reads the position; if flat it does nothing, otherwise it
calls `api.close_position` (whose failure is caught and only logged).  Returns
the list of `close_position` calls issued. -/
def close_all (bk : Broker) (symbol : String) : List String :=
  if get_pos_qty bk symbol = 0 then [] else [symbol]

/-- `latest_price`: best-effort latest trade price, `none` on failure. -/
def latest_price (bk : Broker) (symbol : String) : Option ℚ :=
  bk.latestTrade symbol

/-- The order built by `place_notional_buy`: fractional notional, DAY TIF. -/
def notional_buy_order (cfg : Config) (symbol : String) : Order :=
  ⟨symbol, "buy", "market", "day", some cfg.TRADE_NOTIONAL_USD, none⟩

/-- The quantity computed in `place_qty_sell`: `qty = 1`, then if the price is
truthy and positive, `qty = max(1, int(TRADE_NOTIONAL_USD // px))`. -/
def short_qty (cfg : Config) (px : Option ℚ) : Int :=
  match px with
  | some p => if ¬ p = 0 ∧ 0 < p then max 1 ⌊cfg.TRADE_NOTIONAL_USD / p⌋ else 1
  | none => 1

/-- The order built by `place_qty_sell`: whole-share qty, GTC TIF. -/
def qty_sell_order (cfg : Config) (bk : Broker) (symbol : String) : Order :=
  ⟨symbol, "sell", "market", "gtc", none,
    some (short_qty cfg (latest_price bk symbol))⟩

/-- An HTTP response: either a JSON body keyed by `status` (optionally with a
`next` field, as in `flattened_wait_reopen`) or one keyed by `error`,
together with the HTTP status code. -/
inductive Resp where
  | ok : String → Nat → Resp
  | okNext : String → String → Nat → Resp
  | err : String → Nat → Resp
deriving Repr, DecidableEq

/-- The HTTP status code of a response. -/
def Resp.code : Resp → Nat
  | .ok _ c => c
  | .okNext _ _ c => c
  | .err _ c => c

/-- Whether the response body is keyed by `error`. -/
def Resp.isErr : Resp → Bool
  | .err _ _ => true
  | _ => false

/-- The parsed JSON body of a webhook request (fields absent ↦ `none`). -/
structure Request where
  secret : Option String
  alert : Option String
  symbol : Option String
deriving Repr, DecidableEq

/-- The brokerage calls a webhook invocation performs: `submit_order`
arguments (in call order, including calls that raised) and `close_position`
calls. -/
structure Effects where
  orders : List Order
  closes : List String
deriving Repr, DecidableEq

/-- Outcome of one webhook invocation: HTTP response, the `last_signal`
memory afterwards, and the brokerage side effects. -/
structure Result where
  resp : Resp
  mem : Memory
  eff : Effects
deriving Repr, DecidableEq

/-- The body of `webhook` after input parsing: tradability check, then the
transition logic.  `action` and `symbol` are the uppercased inputs. -/
def webhookCore (cfg : Config) (bk : Broker) (mem : Memory)
    (action symbol : String) : Result :=
  match bk.getAsset symbol with
  | none => ⟨.err ("unknown asset " ++ symbol) 400, mem, ⟨[], []⟩⟩
  | some false => ⟨.err (symbol ++ " not tradable") 400, mem, ⟨[], []⟩⟩
  | some true =>
    if action = "CLOSE" then
      ⟨.ok "closed" 200, memSet mem symbol "FLAT", ⟨[], close_all bk symbol⟩⟩
    else if action = memGet mem symbol then
      ⟨.ok "noop_same_signal" 200, mem, ⟨[], []⟩⟩
    else if action = "BUY" then
      if get_pos_qty bk symbol < 0 then
        ⟨.okNext "flattened_wait_reopen" "BUY" 202, memSet mem symbol "FLAT",
          ⟨[], close_all bk symbol⟩⟩
      else
        if bk.submitOk (notional_buy_order cfg symbol) then
          ⟨.ok "opened_long" 200, memSet mem symbol "BUY",
            ⟨[notional_buy_order cfg symbol], []⟩⟩
        else
          ⟨.ok "error" 400, mem, ⟨[notional_buy_order cfg symbol], []⟩⟩
    else if action = "SELL" then
      if ¬ cfg.ALLOW_SHORTS then
        ⟨.ok "shorts_disabled" 200, mem, ⟨[], []⟩⟩
      else if 0 < get_pos_qty bk symbol then
        ⟨.okNext "flattened_wait_reopen" "SELL" 202, memSet mem symbol "FLAT",
          ⟨[], close_all bk symbol⟩⟩
      else
        if bk.submitOk (qty_sell_order cfg bk symbol) then
          ⟨.ok "opened_short" 200, memSet mem symbol "SELL",
            ⟨[qty_sell_order cfg bk symbol], []⟩⟩
        else
          ⟨.ok "error" 400, mem, ⟨[qty_sell_order cfg bk symbol], []⟩⟩
    else
      ⟨.err ("unknown action " ++ action) 400, mem, ⟨[], []⟩⟩

/-- The `/webhook` POST handler: optional shared-secret check, input parsing
with defaults (`alert` defaults to `""`, `symbol` to `"TSLA"`, both
uppercased), then `webhookCore`. -/
def webhook (cfg : Config) (bk : Broker) (mem : Memory) (req : Request) :
    Result :=
  if cfg.WEBHOOK_SECRET ≠ "" ∧ req.secret ≠ some cfg.WEBHOOK_SECRET then
    ⟨.err "unauthorized" 403, mem, ⟨[], []⟩⟩
  else
    webhookCore cfg bk mem (pyUpper (req.alert.getD ""))
      (pyUpper (req.symbol.getD "TSLA"))

/-! ## The §4.4 transition table, modelled from the spec -/

/-- The kind of opening order a transition-table row submits. -/
inductive OrderK where
  | notionalBuy
  | qtyShort
deriving Repr, DecidableEq

/-- One transition-table row's outcome: the response, the Signal Memory write
(`none` = unchanged), whether the position is flattened (the flatten itself is
a no-op when already flat), and which opening order (if any) is submitted. -/
structure RowOut where
  resp : Resp
  memWrite : Option String
  flatten : Bool
  opens : Option OrderK
deriving Repr, DecidableEq

/-- Modelled from the spec: the §4.4 transition table, rows evaluated in order
with the first match winning (1 CLOSE; 2 duplicate; 3 BUY with pos < 0;
4 BUY with pos ≥ 0; 5 SELL with shorting disabled; 6 SELL with pos > 0;
7 SELL with pos ≤ 0; 8 anything else rejected).  Response tags follow §6
("a `status` field matching the Decision tag"): `Closed` ↦ "closed", `Noop` ↦
"noop_same_signal", `FlattenAndWait(next=X)` ↦ "flattened_wait_reopen" with
next X, `OpenedLong` ↦ "opened_long", `ShortsDisabled` ↦ "shorts_disabled",
`OpenedShort` ↦ "opened_short", `Rejected` ↦ the unknown-action error body. -/
def tableDecision (allowShorts : Bool) (action prev : String) (pos : Int) :
    RowOut :=
  if action = "CLOSE" then
    ⟨.ok "closed" 200, some "FLAT", true, none⟩
  else if action = prev then
    ⟨.ok "noop_same_signal" 200, none, false, none⟩
  else if action = "BUY" ∧ pos < 0 then
    ⟨.okNext "flattened_wait_reopen" "BUY" 202, some "FLAT", true, none⟩
  else if action = "BUY" ∧ 0 ≤ pos then
    ⟨.ok "opened_long" 200, some "BUY", false, some .notionalBuy⟩
  else if action = "SELL" ∧ allowShorts = false then
    ⟨.ok "shorts_disabled" 200, none, false, none⟩
  else if action = "SELL" ∧ 0 < pos then
    ⟨.okNext "flattened_wait_reopen" "SELL" 202, some "FLAT", true, none⟩
  else if action = "SELL" ∧ pos ≤ 0 then
    ⟨.ok "opened_short" 200, some "SELL", false, some .qtyShort⟩
  else
    ⟨.err ("unknown action " ++ action) 400, none, false, none⟩

/-- The agreement between one `webhookCore` run and one table row: matching
response, memory update, close calls and submitted orders. -/
def agreesWithRow (cfg : Config) (bk : Broker) (mem : Memory)
    (symbol : String) (r : Result) (d : RowOut) : Prop :=
  r.resp = d.resp ∧
  r.mem = (match d.memWrite with
           | some v => memSet mem symbol v
           | none => mem) ∧
  r.eff.closes = (if d.flatten then close_all bk symbol else []) ∧
  r.eff.orders = (match d.opens with
           | some .notionalBuy => [notional_buy_order cfg symbol]
           | some .qtyShort => [qty_sell_order cfg bk symbol]
           | none => [])

/-- Post-parsing, with a tradable symbol and successful submissions, the code
follows the §4.4 table exactly. -/
theorem webhookCore_follows_table (cfg : Config) (bk : Broker) (mem : Memory)
    (action symbol : String)
    (htrad : bk.getAsset symbol = some true)
    (hsub : ∀ o, bk.submitOk o = true) :
    agreesWithRow cfg bk mem symbol (webhookCore cfg bk mem action symbol)
      (tableDecision cfg.ALLOW_SHORTS action (memGet mem symbol)
        (get_pos_qty bk symbol)) := by
  unfold agreesWithRow
  simp only [webhookCore, htrad, tableDecision]
  by_cases h1 : action = "CLOSE"
  · subst h1; simp
  by_cases h2 : action = memGet mem symbol
  · simp [h1, ← h2]
  by_cases h3 : action = "BUY"
  · subst h3
    by_cases h4 : get_pos_qty bk symbol < 0
    · simp [h2, h4]
    · have h4' : 0 ≤ get_pos_qty bk symbol := le_of_not_lt h4
      simp [h2, h4, h4', hsub]
  by_cases h5 : action = "SELL"
  · subst h5
    by_cases h6 : cfg.ALLOW_SHORTS
    · by_cases h7 : 0 < get_pos_qty bk symbol
      · simp [h2, h6, h7]
      · have h7' : get_pos_qty bk symbol ≤ 0 := le_of_not_lt h7
        simp [h2, h6, h7, h7', hsub]
    · simp [h2, h6]
  · simp [h1, h2, h3, h5]

/-- C1: for every webhook call that passes the auth and tradability checks
and whose order submissions succeed, the response, Signal Memory update,
close calls and orders submitted are exactly those of the first matching row
of the §4.4 transition table (CLOSE, then duplicate, then the BUY rules, then
shorts-disabled followed by the SELL rules, then rejection); in particular
duplicate suppression is evaluated before the shorts-disabled check. -/
theorem webhook_follows_table (cfg : Config) (bk : Broker) (mem : Memory)
    (req : Request) (action symbol : String)
    (ha : action = pyUpper (req.alert.getD ""))
    (hs : symbol = pyUpper (req.symbol.getD "TSLA"))
    (hauth : ¬ (cfg.WEBHOOK_SECRET ≠ "" ∧ req.secret ≠ some cfg.WEBHOOK_SECRET))
    (htrad : bk.getAsset symbol = some true)
    (hsub : ∀ o, bk.submitOk o = true) :
    agreesWithRow cfg bk mem symbol (webhook cfg bk mem req)
      (tableDecision cfg.ALLOW_SHORTS action (memGet mem symbol)
        (get_pos_qty bk symbol)) := by
  subst ha hs
  rw [webhook, if_neg hauth]
  exact webhookCore_follows_table cfg bk mem _ _ htrad hsub

/-! ## Concrete fixtures for witnesses -/

/-- A configuration with no webhook secret, shorts allowed, $100 cap. -/
def cfg0 : Config := ⟨"", true, 100⟩

/-- A configuration identical to `cfg0` but with shorting disabled. -/
def cfgNoShorts : Config := ⟨"", false, 100⟩

/-- A broker where every symbol is tradable, every position lookup fails
(reads as flat), the latest price is $50, and every call succeeds. -/
def bkFlat : Broker := ⟨fun _ => some true, fun _ => none, fun _ => some 50,
  fun _ => true, fun _ => true⟩

/-- Like `bkFlat` but every order submission raises. -/
def bkFail : Broker := ⟨fun _ => some true, fun _ => none, fun _ => some 50,
  fun _ => false, fun _ => true⟩

/-- C1 witness: a BUY alert on a flat symbol with fixture `bkFlat`. -/
theorem webhook_follows_table_witness :
    agreesWithRow cfg0 bkFlat [] "AAPL"
      (webhook cfg0 bkFlat [] ⟨none, some "buy", some "aapl"⟩)
      (tableDecision cfg0.ALLOW_SHORTS "BUY" (memGet [] "AAPL")
        (get_pos_qty bkFlat "AAPL")) :=
  webhook_follows_table cfg0 bkFlat [] ⟨none, some "buy", some "aapl"⟩
    "BUY" "AAPL" (by decide) (by decide) (by decide) rfl (fun _ => rfl)

/-- Post-parsing: if every order submission raises, then any run that
attempted a submission answers the error response and keeps the memory. -/
theorem webhookCore_submit_failure (cfg : Config) (bk : Broker)
    (mem : Memory) (action symbol : String)
    (hsub : ∀ o, bk.submitOk o = false)
    (hord : (webhookCore cfg bk mem action symbol).eff.orders ≠ []) :
    (webhookCore cfg bk mem action symbol).resp = .ok "error" 400 ∧
    (webhookCore cfg bk mem action symbol).mem = mem := by
  have hs1 : bk.submitOk (notional_buy_order cfg symbol) = false := hsub _
  have hs2 : bk.submitOk (qty_sell_order cfg bk symbol) = false := hsub _
  unfold webhookCore at hord ⊢
  rcases h : bk.getAsset symbol with _ | b
  · simp only [h] at hord; simp at hord
  · rcases b
    · simp only [h] at hord; simp at hord
    · simp only [h] at hord ⊢
      simp only [hs1, hs2, if_false] at hord ⊢
      split_ifs at hord ⊢ <;> simp_all

/-- C2: if order submission raises a brokerage failure on a call that
attempts a submission (the open-long and open-short transitions are the only
ones that do), the webhook returns the error response and Signal Memory is
unchanged from its pre-call value. -/
theorem order_failure_leaves_memory (cfg : Config) (bk : Broker)
    (mem : Memory) (req : Request)
    (hsub : ∀ o, bk.submitOk o = false)
    (hord : (webhook cfg bk mem req).eff.orders ≠ []) :
    (webhook cfg bk mem req).resp = .ok "error" 400 ∧
    (webhook cfg bk mem req).mem = mem := by
  unfold webhook at hord ⊢
  split_ifs at hord ⊢ with hauth
  · simp at hord
  · exact webhookCore_submit_failure cfg bk mem _ _ hsub hord

/-- C2 witness: a failing BUY submission with fixture `bkFail`. -/
theorem order_failure_leaves_memory_witness :
    (webhook cfg0 bkFail [] ⟨none, some "BUY", some "AAPL"⟩).resp =
        .ok "error" 400 ∧
    (webhook cfg0 bkFail [] ⟨none, some "BUY", some "AAPL"⟩).mem = [] :=
  order_failure_leaves_memory cfg0 bkFail [] ⟨none, some "BUY", some "AAPL"⟩
    (fun _ => rfl) (by decide)

/-! ## C3: reachable memories never hold SELL when shorting is disabled -/

/-- Reading after a write: the most recent binding wins. -/
theorem memGet_memSet (m : Memory) (sym v s : String) :
    memGet (memSet m sym v) s = if s = sym then v else memGet m s := by
  by_cases h : s = sym
  · simp [memGet, memSet, List.lookup, h]
  · have hb : (s == sym) = false := beq_eq_false_iff_ne.mpr h
    simp [memGet, memSet, List.lookup, h, hb]

/-- With shorting disabled, one webhook call either keeps the memory or
writes "FLAT" or "BUY" for the request's symbol (the only write of "SELL" is
on the open-short path, unreachable when shorting is disabled). -/
theorem webhookCore_mem_no_sell (cfg : Config) (bk : Broker) (mem : Memory)
    (action symbol : String) (hs : cfg.ALLOW_SHORTS = false) :
    (webhookCore cfg bk mem action symbol).mem = mem ∨
    (webhookCore cfg bk mem action symbol).mem = memSet mem symbol "FLAT" ∨
    (webhookCore cfg bk mem action symbol).mem = memSet mem symbol "BUY" := by
  unfold webhookCore
  rcases h : bk.getAsset symbol with _ | b
  · simp
  · rcases b
    · simp
    · split_ifs <;> simp_all

/-- With shorting disabled, one webhook call (parsing included) either keeps
the memory or writes "FLAT" or "BUY". -/
theorem webhook_mem_no_sell (cfg : Config) (bk : Broker) (mem : Memory)
    (req : Request) (hs : cfg.ALLOW_SHORTS = false) :
    (webhook cfg bk mem req).mem = mem ∨
    (webhook cfg bk mem req).mem =
      memSet mem (pyUpper (req.symbol.getD "TSLA")) "FLAT" ∨
    (webhook cfg bk mem req).mem =
      memSet mem (pyUpper (req.symbol.getD "TSLA")) "BUY" := by
  unfold webhook
  split_ifs
  · left; rfl
  · exact webhookCore_mem_no_sell cfg bk mem _ _ hs

/-- Signal Memory states reachable from the empty starting state by webhook
calls under a fixed configuration, with arbitrary brokers and requests. -/
inductive Reachable (cfg : Config) : Memory → Prop where
  | init : Reachable cfg []
  | step (m : Memory) (bk : Broker) (req : Request) :
      Reachable cfg m → Reachable cfg (webhook cfg bk m req).mem

/-- The reachable-state invariant: with shorting disabled, Signal Memory
never holds SELL for any symbol. -/
theorem reachable_no_sell (cfg : Config) (hs : cfg.ALLOW_SHORTS = false)
    (mem : Memory) (hr : Reachable cfg mem) (s : String) :
    memGet mem s ≠ "SELL" := by
  induction hr with
  | init => simp [memGet]
  | step m bk req _ ih =>
      rcases webhook_mem_no_sell cfg bk m req hs with h | h | h <;> rw [h]
      · exact ih
      · rw [memGet_memSet]; split_ifs <;> simp_all
      · rw [memGet_memSet]; split_ifs <;> simp_all

/-- Post-parsing: a SELL action with shorting disabled answers
`shorts_disabled`/200 and changes nothing, provided the remembered signal is
not SELL (so duplicate suppression cannot preempt the shorts-disabled rule). -/
theorem webhookCore_sell_disabled (cfg : Config) (bk : Broker) (mem : Memory)
    (symbol : String) (hs : cfg.ALLOW_SHORTS = false)
    (hprev : memGet mem symbol ≠ "SELL")
    (htrad : bk.getAsset symbol = some true) :
    webhookCore cfg bk mem "SELL" symbol =
      ⟨.ok "shorts_disabled" 200, mem, ⟨[], []⟩⟩ := by
  have hdup : ¬ ("SELL" = memGet mem symbol) := fun h => hprev h.symm
  unfold webhookCore
  simp [htrad, hdup, hs]

/-- C3: when shorting is disabled, a SELL alert on any reachable memory state
yields `shorts_disabled` with status 200 regardless of position state, with
no memory update and no brokerage calls; this rests on the reachable-state
invariant that the memory never holds SELL when shorting is disabled. -/
theorem sell_disabled_always_shorts_disabled (cfg : Config) (bk : Broker)
    (mem : Memory) (req : Request)
    (hs : cfg.ALLOW_SHORTS = false)
    (hr : Reachable cfg mem)
    (hauth : ¬ (cfg.WEBHOOK_SECRET ≠ "" ∧ req.secret ≠ some cfg.WEBHOOK_SECRET))
    (ha : pyUpper (req.alert.getD "") = "SELL")
    (htrad : bk.getAsset (pyUpper (req.symbol.getD "TSLA")) = some true) :
    webhook cfg bk mem req = ⟨.ok "shorts_disabled" 200, mem, ⟨[], []⟩⟩ := by
  rw [webhook, if_neg hauth, ha]
  exact webhookCore_sell_disabled cfg bk mem _ hs
    (reachable_no_sell cfg hs mem hr _) htrad

/-- C3 witness: a SELL alert with shorting disabled, on the empty memory,
against a broker holding a long position (so position state is irrelevant). -/
theorem sell_disabled_always_shorts_disabled_witness :
    webhook cfgNoShorts bkFlat [] ⟨none, some "sell", some "aapl"⟩ =
      ⟨.ok "shorts_disabled" 200, [], ⟨[], []⟩⟩ :=
  sell_disabled_always_shorts_disabled cfgNoShorts bkFlat []
    ⟨none, some "sell", some "aapl"⟩ rfl .init (by decide) (by decide) rfl

/-! ## C4: unknown actions -/

/-- C4 counterexample: "FLAT" is outside {BUY, SELL, CLOSE}, yet with default
memory (remembered signal "FLAT") the webhook answers `noop_same_signal` with
status 200, not a rejection with status 400: the duplicate check precedes the
unknown-action rejection. -/
theorem unknown_action_counterexample :
    ("FLAT" ≠ "BUY" ∧ "FLAT" ≠ "SELL" ∧ "FLAT" ≠ "CLOSE") ∧
    (webhook cfg0 bkFlat [] ⟨none, some "FLAT", some "AAPL"⟩).resp =
      .ok "noop_same_signal" 200 ∧
    (webhook cfg0 bkFlat [] ⟨none, some "FLAT", some "AAPL"⟩).resp.code ≠ 400
    := by decide

/-- Post-parsing: an action outside {BUY, SELL, CLOSE} submits no order,
issues no close, keeps the memory, and is rejected with 400 unless it equals
the remembered signal, in which case it is suppressed as a duplicate. -/
theorem webhookCore_unknown_action (cfg : Config) (bk : Broker)
    (mem : Memory) (action symbol : String)
    (htrad : bk.getAsset symbol = some true)
    (hact : action ≠ "BUY" ∧ action ≠ "SELL" ∧ action ≠ "CLOSE") :
    (webhookCore cfg bk mem action symbol).eff = ⟨[], []⟩ ∧
    (webhookCore cfg bk mem action symbol).mem = mem ∧
    (action ≠ memGet mem symbol →
      (webhookCore cfg bk mem action symbol).resp =
        .err ("unknown action " ++ action) 400) ∧
    (action = memGet mem symbol →
      (webhookCore cfg bk mem action symbol).resp =
        .ok "noop_same_signal" 200) := by
  obtain ⟨hb, hs, hc⟩ := hact
  unfold webhookCore
  simp only [htrad]
  by_cases hdup : action = memGet mem symbol
  · simp [hb, hs, hc, ← hdup]
  · simp [hb, hs, hc, hdup]

/-- C4 as amended: for every action string outside {BUY, SELL, CLOSE} and
every prior memory and position state, the webhook makes no brokerage order
call and leaves Signal Memory unchanged; it responds with the unknown-action
rejection and status 400 unless the action equals the remembered previous
signal, in which case duplicate suppression answers `noop_same_signal` with
status 200. -/
theorem unknown_action_behavior (cfg : Config) (bk : Broker) (mem : Memory)
    (req : Request) (action symbol : String)
    (ha : action = pyUpper (req.alert.getD ""))
    (hsy : symbol = pyUpper (req.symbol.getD "TSLA"))
    (hauth : ¬ (cfg.WEBHOOK_SECRET ≠ "" ∧ req.secret ≠ some cfg.WEBHOOK_SECRET))
    (htrad : bk.getAsset symbol = some true)
    (hact : action ≠ "BUY" ∧ action ≠ "SELL" ∧ action ≠ "CLOSE") :
    (webhook cfg bk mem req).eff = ⟨[], []⟩ ∧
    (webhook cfg bk mem req).mem = mem ∧
    (action ≠ memGet mem symbol →
      (webhook cfg bk mem req).resp = .err ("unknown action " ++ action) 400) ∧
    (action = memGet mem symbol →
      (webhook cfg bk mem req).resp = .ok "noop_same_signal" 200) := by
  subst ha hsy
  rw [webhook, if_neg hauth]
  exact webhookCore_unknown_action cfg bk mem _ _ htrad hact

/-- C4 witness: an empty-string action on a non-empty remembered signal is
rejected with status 400 and no side effects. -/
theorem unknown_action_behavior_witness :
    (webhook cfg0 bkFlat [("AAPL", "BUY")] ⟨none, none, some "aapl"⟩).eff =
      ⟨[], []⟩ ∧
    (webhook cfg0 bkFlat [("AAPL", "BUY")] ⟨none, none, some "aapl"⟩).mem =
      [("AAPL", "BUY")] ∧
    (webhook cfg0 bkFlat [("AAPL", "BUY")] ⟨none, none, some "aapl"⟩).resp =
      .err ("unknown action " ++ "") 400 := by
  have h := unknown_action_behavior cfg0 bkFlat [("AAPL", "BUY")]
    ⟨none, none, some "aapl"⟩ "" "AAPL" (by decide) (by decide) (by decide)
    rfl (by decide)
  exact ⟨h.1, h.2.1, h.2.2.1 (by decide)⟩

/-! ## C5: whole-share short sizing -/

/-- Like `bkFlat` but with latest price $37.50, the spec's worked example. -/
def bk375 : Broker := ⟨fun _ => some true, fun _ => none,
  fun _ => some (75 / 2), fun _ => true, fun _ => true⟩

/-- C5: on the open-short transition, if the latest-price lookup returns an
available positive price p the submitted quantity is
max(1, floor(notionalCapUSD / p)), and if the lookup fails it is exactly 1
(the order being whole-share, sell-side, market, GTC in both cases). -/
theorem short_sizing (cfg : Config) (bk : Broker) (mem : Memory)
    (symbol : String)
    (htrad : bk.getAsset symbol = some true)
    (hshorts : cfg.ALLOW_SHORTS = true)
    (hprev : memGet mem symbol ≠ "SELL")
    (hpos : get_pos_qty bk symbol ≤ 0) :
    (∀ p, latest_price bk symbol = some p → 0 < p →
      (webhookCore cfg bk mem "SELL" symbol).eff.orders =
        [⟨symbol, "sell", "market", "gtc", none,
          some (max 1 ⌊cfg.TRADE_NOTIONAL_USD / p⌋)⟩]) ∧
    (latest_price bk symbol = none →
      (webhookCore cfg bk mem "SELL" symbol).eff.orders =
        [⟨symbol, "sell", "market", "gtc", none, some 1⟩]) := by
  have hdup : ¬ ("SELL" = memGet mem symbol) := fun h => hprev h.symm
  have hnpos : ¬ (0 < get_pos_qty bk symbol) := not_lt.mpr hpos
  have horders : (webhookCore cfg bk mem "SELL" symbol).eff.orders =
      [qty_sell_order cfg bk symbol] := by
    unfold webhookCore
    simp only [htrad]
    simp [hdup, hshorts, hnpos]
    split_ifs <;> simp
  refine ⟨fun p hp hp0 => ?_, fun hp => ?_⟩
  · rw [horders]
    have hpne : ¬ (p = 0) := ne_of_gt hp0
    simp [qty_sell_order, short_qty, hp, hpne, hp0]
  · rw [horders]
    simp [qty_sell_order, short_qty, hp]

/-- C5 witness: cap $100 and price $37.50 give quantity 2 (the spec's
worked example), and a failed price lookup gives quantity 1. -/
theorem short_sizing_witness :
    (webhookCore cfg0 bk375 [] "SELL" "AAPL").eff.orders =
      [⟨"AAPL", "sell", "market", "gtc", none, some 2⟩] := by
  have h := (short_sizing cfg0 bk375 [] "AAPL" rfl rfl (by decide)
      (by decide)).1 (75 / 2) rfl (by norm_num)
  rw [h]
  norm_num [cfg0]

/-! ## C6: CLOSE -/

/-- C6: a CLOSE alert is always accepted with `closed`/200, always sets the
symbol's memory to FLAT, never submits an order, and does not invoke the
brokerage close call when the position already reads flat.  The broker `bk`
is arbitrary, in particular one whose `close_position` would fail: the code
swallows that failure, so the accepted response does not depend on it. -/
theorem close_always_accepted (cfg : Config) (bk : Broker) (mem : Memory)
    (req : Request) (symbol : String)
    (hsy : symbol = pyUpper (req.symbol.getD "TSLA"))
    (hauth : ¬ (cfg.WEBHOOK_SECRET ≠ "" ∧ req.secret ≠ some cfg.WEBHOOK_SECRET))
    (ha : pyUpper (req.alert.getD "") = "CLOSE")
    (htrad : bk.getAsset symbol = some true) :
    (webhook cfg bk mem req).resp = .ok "closed" 200 ∧
    (webhook cfg bk mem req).mem = memSet mem symbol "FLAT" ∧
    (webhook cfg bk mem req).eff.orders = [] ∧
    (get_pos_qty bk symbol = 0 → (webhook cfg bk mem req).eff.closes = []) := by
  subst hsy
  rw [webhook, if_neg hauth, ha]
  unfold webhookCore
  simp only [htrad]
  refine ⟨by simp, by simp, by simp, fun h => ?_⟩
  simp [close_all, h]

/-- C6 witness: a CLOSE alert on a flat symbol, with prior memory "BUY". -/
theorem close_always_accepted_witness :
    (webhook cfg0 bkFlat [("AAPL", "BUY")] ⟨none, some "close", some "aapl"⟩).resp
      = .ok "closed" 200 ∧
    (webhook cfg0 bkFlat [("AAPL", "BUY")] ⟨none, some "close", some "aapl"⟩).mem
      = memSet [("AAPL", "BUY")] "AAPL" "FLAT" ∧
    (webhook cfg0 bkFlat [("AAPL", "BUY")]
        ⟨none, some "close", some "aapl"⟩).eff.orders = [] ∧
    (webhook cfg0 bkFlat [("AAPL", "BUY")]
        ⟨none, some "close", some "aapl"⟩).eff.closes = [] := by
  have h := close_always_accepted cfg0 bkFlat [("AAPL", "BUY")]
    ⟨none, some "close", some "aapl"⟩ "AAPL" (by decide) (by decide)
    (by decide) rfl
  exact ⟨h.1, h.2.1, h.2.2.1, h.2.2.2 (by decide)⟩

/-! ## C7: the Position Oracle -/

/-- A broker holding a 3-share long in "L" and a 2-share short in "S". -/
def bkPos : Broker := ⟨fun _ => some true,
  fun sym => if sym = "L" then some ⟨3, "long"⟩
             else if sym = "S" then some ⟨2, "short"⟩ else none,
  fun _ => none, fun _ => true, fun _ => true⟩

/-- C7: `get_pos_qty` returns 0 both when the position is absent and when the
lookup fails (both are the `none` case — there is no distinct unknown/error
result, the return type being a plain integer); for a held position of at
least one share it is positive for side "long" and negative for side
"short", with magnitude the truncated quantity. -/
theorem get_pos_qty_contract (bk : Broker) (s : String) :
    (bk.getPosition s = none → get_pos_qty bk s = 0) ∧
    (∀ p, bk.getPosition s = some p →
      get_pos_qty bk s =
        (if p.side = "long" then pytrunc p.qty else -(pytrunc p.qty)) ∧
      (1 ≤ p.qty →
        (p.side = "long" → 0 < get_pos_qty bk s) ∧
        (p.side = "short" → get_pos_qty bk s < 0))) := by
  refine ⟨fun h => by simp [get_pos_qty, h], fun p hp => ?_⟩
  have htr : 1 ≤ p.qty → 1 ≤ pytrunc p.qty := by
    intro h1
    have h0 : (0 : ℚ) ≤ p.qty := le_trans (by norm_num) h1
    rw [pytrunc, if_pos h0]
    exact Int.le_floor.mpr (by exact_mod_cast h1)
  refine ⟨by simp [get_pos_qty, hp], fun h1 => ⟨fun hl => ?_, fun hsh => ?_⟩⟩
  · have := htr h1
    simp [get_pos_qty, hp, hl]
    omega
  · have := htr h1
    have hne : ¬ (p.side = "long") := by rw [hsh]; decide
    simp [get_pos_qty, hp, hne]
    omega

/-- C7 witness: with `bkPos`, "L" reads +3, "S" reads -2, and an unknown
symbol (lookup failure or flat) reads 0. -/
theorem get_pos_qty_contract_witness :
    get_pos_qty bkPos "X" = 0 ∧
    0 < get_pos_qty bkPos "L" ∧ get_pos_qty bkPos "S" < 0 := by
  refine ⟨(get_pos_qty_contract bkPos "X").1 rfl, ?_, ?_⟩
  · exact (((get_pos_qty_contract bkPos "L").2 ⟨3, "long"⟩ rfl).2
      (by norm_num)).1 rfl
  · exact (((get_pos_qty_contract bkPos "S").2 ⟨2, "short"⟩ rfl).2
      (by norm_num)).2 rfl

/-! ## C8: auth and tradability checks come first -/

/-- A configuration with a non-empty webhook secret. -/
def cfgSec : Config := ⟨"s3cretvalue", true, 100⟩

/-- C8: a secret mismatch answers 403 and an unknown/non-tradable symbol
answers a 400 error body; on both paths the memory is unchanged and no order
or close is issued, and the response is identical for every memory state and
every broker that agrees on `getAsset` (so neither the Position Oracle nor
Signal Memory influences these rejections — they are decided first). -/
theorem checks_precede_state (cfg : Config) (bk bk' : Broker)
    (mem mem' : Memory) (req : Request)
    (hga : bk.getAsset = bk'.getAsset) :
    (cfg.WEBHOOK_SECRET ≠ "" ∧ req.secret ≠ some cfg.WEBHOOK_SECRET →
      webhook cfg bk mem req = ⟨.err "unauthorized" 403, mem, ⟨[], []⟩⟩ ∧
      (webhook cfg bk' mem' req).resp = .err "unauthorized" 403) ∧
    (¬ (cfg.WEBHOOK_SECRET ≠ "" ∧ req.secret ≠ some cfg.WEBHOOK_SECRET) →
      bk.getAsset (pyUpper (req.symbol.getD "TSLA")) ≠ some true →
      (webhook cfg bk mem req).mem = mem ∧
      (webhook cfg bk mem req).eff = ⟨[], []⟩ ∧
      (webhook cfg bk mem req).resp.isErr = true ∧
      (webhook cfg bk mem req).resp.code = 400 ∧
      (webhook cfg bk' mem' req).resp = (webhook cfg bk mem req).resp) := by
  constructor
  · intro h
    rw [webhook, if_pos h, webhook, if_pos h]
    exact ⟨rfl, rfl⟩
  · intro hna htr
    rw [webhook, if_neg hna, webhook, if_neg hna]
    unfold webhookCore
    rw [← hga]
    rcases h : bk.getAsset (pyUpper (req.symbol.getD "TSLA")) with _ | b
    · simp [Resp.isErr, Resp.code]
    · rcases b
      · simp [Resp.isErr, Resp.code]
      · exact absurd h htr

/-- C8 witness: with a configured secret and no secret in the body, the
request is rejected 403 untouched; and with a broker that knows no assets,
an authorized request is rejected 400 untouched. -/
theorem checks_precede_state_witness :
    (webhook cfgSec bkFlat [("AAPL", "BUY")] ⟨none, some "BUY", some "AAPL"⟩ =
      ⟨.err "unauthorized" 403, [("AAPL", "BUY")], ⟨[], []⟩⟩) := by
  have h := (checks_precede_state cfgSec bkFlat bkFlat [("AAPL", "BUY")] []
    ⟨none, some "BUY", some "AAPL"⟩ rfl).1 (by decide)
  exact h.1

/-! ## C9: the OrderSpec invariant -/

/-- C9: every order the webhook submits carries either a notional dollar
amount or a whole-share quantity and never both; notional orders are
submitted with time_in_force "day" and whole-share orders with "gtc". -/
theorem orders_wellformed (cfg : Config) (bk : Broker) (mem : Memory)
    (req : Request) :
    ∀ o ∈ (webhook cfg bk mem req).eff.orders,
      (o.notional.isSome ∧ o.qty = none ∧ o.time_in_force = "day") ∨
      (o.qty.isSome ∧ o.notional = none ∧ o.time_in_force = "gtc") := by
  intro o ho
  unfold webhook at ho
  split_ifs at ho
  · simp at ho
  · unfold webhookCore at ho
    rcases h : bk.getAsset (pyUpper (req.symbol.getD "TSLA")) with _ | b
    · simp only [h] at ho; simp at ho
    · rcases b
      · simp only [h] at ho; simp at ho
      · simp only [h] at ho
        split_ifs at ho <;>
          simp_all [notional_buy_order, qty_sell_order]

/-- C9 witness: the notional BUY order produced by a concrete run. -/
theorem orders_wellformed_witness :
    ((notional_buy_order cfg0 "AAPL").notional.isSome ∧
      (notional_buy_order cfg0 "AAPL").qty = none ∧
      (notional_buy_order cfg0 "AAPL").time_in_force = "day") ∨
    ((notional_buy_order cfg0 "AAPL").qty.isSome ∧
      (notional_buy_order cfg0 "AAPL").notional = none ∧
      (notional_buy_order cfg0 "AAPL").time_in_force = "gtc") :=
  orders_wellformed cfg0 bkFlat [] ⟨none, some "BUY", some "AAPL"⟩
    (notional_buy_order cfg0 "AAPL") (by decide)

/-! ## C10: default symbol and uppercasing -/

/-- C10: a request with no "symbol" field is processed exactly like one whose
symbol is the hard-coded default "TSLA" (not rejected), and both the alert
and the symbol are uppercased before any comparison or brokerage call: two
requests whose alert and symbol agree after uppercasing get identical
results, so lowercase inputs behave identically to uppercase ones. -/
theorem default_symbol_and_uppercase (cfg : Config) (bk : Broker)
    (mem : Memory) (sec alert : Option String) :
    (webhook cfg bk mem ⟨sec, alert, none⟩ =
      webhook cfg bk mem ⟨sec, alert, some "TSLA"⟩) ∧
    (∀ a b s t : String, pyUpper a = pyUpper b → pyUpper s = pyUpper t →
      webhook cfg bk mem ⟨sec, some a, some s⟩ =
        webhook cfg bk mem ⟨sec, some b, some t⟩) := by
  refine ⟨rfl, fun a b s t ha hs => ?_⟩
  simp only [webhook, Option.getD_some]
  rw [ha, hs]

/-- C10 witness: the lowercase request ("buy", "tsla") and the uppercase
request ("BUY", "TSLA") produce identical results. -/
theorem default_symbol_and_uppercase_witness :
    webhook cfg0 bkFlat [] ⟨none, some "buy", some "tsla"⟩ =
      webhook cfg0 bkFlat [] ⟨none, some "BUY", some "TSLA"⟩ :=
  (default_symbol_and_uppercase cfg0 bkFlat [] none (some "buy")).2
    "buy" "BUY" "tsla" "TSLA" (by decide) (by decide)

end TradingBot
